import Mathlib

/-!
Verification of the jira-release-creator workflow (`jira_create_release.py`).

The script creates a release (fixVersion) in a JIRA project and attaches it
to every ticket with a given status, preserving existing fixVersions.  We
embed the data model and the workflow shallowly: HTTP exchanges become an
explicit trace of `Request` values, and tracker responses are supplied by a
`Tracker` record.  Python dictionary lookups with defaults become `Option`
fields with `getD`, and Python string truthiness (`not s` is true for both
`None` and `""`) becomes the `truthy` predicate.
-/

namespace JiraRelease

/-- A version reference as it appears in a ticket's `fixVersions` list and
in PUT bodies; the script only ever reads and writes the `id` field. -/
structure VersionRef where
  id : String
deriving DecidableEq, Repr

/-- The `fields` sub-object of an issue returned by the search endpoint.
`fixVersions` is `none` when the key is absent (the script defaults it
to the empty list via `.get('fixVersions', [])`). -/
structure IssueFields where
  fixVersions : Option (List VersionRef)
deriving DecidableEq, Repr

/-- A JIRA issue as consumed by `add_fix_version_to_tickets`: a key plus an
optional `fields` object (`issue.get('fields', {})`). -/
structure Issue where
  key : String
  fields : Option IssueFields
deriving DecidableEq, Repr

/-- `issue.get('fields', {}).get('fixVersions', [])`: the current
fixVersions of an issue, defaulting to the empty list when either the
`fields` object or its `fixVersions` entry is missing. -/
def currentFixVersions (issue : Issue) : List VersionRef :=
  match issue.fields with
  | none => []
  | some f => f.fixVersions.getD []

/-- `[v['id'] for v in current_fix_versions]`: the existing version ids of
an issue, in order. -/
def currentFixVersionIds (issue : Issue) : List String :=
  (currentFixVersions issue).map VersionRef.id

/-- The per-ticket outcome of `add_fix_version_to_tickets`: either a PUT
update carrying the new `fixVersions` body, or the skip branch that prints
the "already has the fixVersion" message. -/
inductive TicketOutcome where
  | updated (key : String) (body : List VersionRef) : TicketOutcome
  | alreadyHas (key : String) : TicketOutcome
deriving DecidableEq, Repr

/-- The loop body of `add_fix_version_to_tickets` for one issue: if the
release id is already among the issue's version ids, skip; otherwise append
it and build the PUT body `[{"id": v} for v in current_fix_version_ids]`. -/
def processIssue (releaseId : String) (issue : Issue) : TicketOutcome :=
  let ids := currentFixVersionIds issue
  if releaseId ∈ ids then
    .alreadyHas issue.key
  else
    .updated issue.key ((ids ++ [releaseId]).map VersionRef.mk)

/-- The console line printed for a per-ticket outcome. -/
def outcomeMessage : TicketOutcome → String
  | .updated key _ => "Added fixVersion to issue " ++ key
  | .alreadyHas key => "Issue " ++ key ++ " already has the fixVersion"

/-- A PUT update request to `/rest/api/2/issue/{key}` with body
`{fields: {fixVersions: [...]}}`. -/
structure PutRequest where
  key : String
  fixVersions : List VersionRef
deriving DecidableEq, Repr

/-- The PUT request an outcome gives rise to: `updated` issues one request,
the skip branch issues none. -/
def putOfOutcome : TicketOutcome → Option PutRequest
  | .updated key body => some ⟨key, body⟩
  | .alreadyHas _ => none

/-- The body of the POST `/rest/api/2/version` request built by
`create_release`; `projectId` is sent as `None` unconditionally and `owner`
is present exactly when the current-user response carries a `key`. -/
structure CreateVersionBody where
  name : String
  project : String
  released : Bool
  userReleaseDate : String
  projectId : Option String
  owner : Option String
deriving DecidableEq, Repr

/-- `create_release`'s request body: name and project from the CLI,
`released: False`, `userReleaseDate` from `datetime.now()` formatted as
`%Y-%m-%d` (here the `today` parameter), `projectId: None`, and the acting
user's key as owner when available. -/
def createReleaseBody (releaseName projectName today : String)
    (currentUserKey : Option String) : CreateVersionBody :=
  { name := releaseName
    project := projectName
    released := false
    userReleaseDate := today
    projectId := none
    owner := currentUserKey }

/-- The JQL string built by `get_tickets_with_status`. -/
def jqlQuery (projectName ticketStatus : String) : String :=
  "project = \"" ++ projectName ++ "\" AND status = \"" ++ ticketStatus ++
    "\" ORDER BY created ASC"

/-- The HTTP exchanges the script performs, abstracted as a trace. -/
inductive Request where
  | getMyself : Request
  | postVersion (body : CreateVersionBody) : Request
  | search (jql : String) (maxResults : Nat) : Request
  | putIssue (key : String) (fixVersions : List VersionRef) : Request
deriving DecidableEq, Repr

/-- Whether a request is the ticket query. -/
def isSearchReq : Request → Bool
  | .search _ _ => true
  | _ => false

/-- Whether a request is a ticket update. -/
def isPutReq : Request → Bool
  | .putIssue _ _ => true
  | _ => false

/-- Python string truthiness on an optional value: `not x` is true when
the key is absent (`None`) or the string is empty. -/
def truthy : Option String → Bool
  | none => false
  | some s => !s.isEmpty

/-- The response of POST `/rest/api/2/version`, with `id` and `name`
optional exactly as `release.get('id')` / `response.get('name', ...)`
treat them. -/
structure VersionResponse where
  id : Option String
  name : Option String
deriving DecidableEq, Repr

/-- The tracker's responses for one run, assuming every HTTP request
succeeds: the `key` of the `/myself` response (absent when the response
lacks one), the release-creation response, and the issue list returned by
the search. -/
structure Tracker where
  myselfKey : Option String
  createResponse : VersionResponse
  searchIssues : List Issue
deriving Repr

/-- Terminal state of a run: `sys.exit` with a code, or normal completion
with the summary count printed at the end. -/
inductive RunResult where
  | aborted (exitCode : Nat) : RunResult
  | completed (summaryCount : Nat) : RunResult
deriving DecidableEq, Repr

/-- `JiraReleaseCreator.run`, with all HTTP requests succeeding: create the
release (which first fetches the current user), abort with exit code 1 when
the response id is missing or empty (`if not release_id`), otherwise query
the tickets and update each one, finishing with the summary count
`len(issues)`.  Returns the request trace and the terminal state. -/
def run (releaseName projectName ticketStatus today : String)
    (tr : Tracker) : List Request × RunResult :=
  let body := createReleaseBody releaseName projectName today tr.myselfKey
  let pre : List Request := [.getMyself, .postVersion body]
  if truthy tr.createResponse.id then
    let releaseId := tr.createResponse.id.getD ""
    let issues := tr.searchIssues
    let searchReq : Request := .search (jqlQuery projectName ticketStatus) 1000
    let puts := ((issues.map (processIssue releaseId)).filterMap putOfOutcome).map
      (fun p => Request.putIssue p.key p.fixVersions)
    (pre ++ searchReq :: puts, .completed issues.length)
  else
    (pre, .aborted 1)

/-- The environment variables read in `__init__`. -/
structure Env where
  jiraBaseUrl : Option String
  jiraUsername : Option String
  jiraApiToken : Option String
deriving Repr

/-- The configuration held by a constructed `JiraReleaseCreator`. -/
structure Config where
  releaseName : String
  projectName : String
  ticketStatus : String
  jiraBaseUrl : String
  jiraUsername : String
  jiraApiToken : String
deriving Repr

/-- `JiraReleaseCreator.__init__`: read the environment, defaulting the
base URL, and `sys.exit(1)` when the username or API token is missing or
empty.  No HTTP request is made here. -/
def initCreator (releaseName projectName ticketStatus : String)
    (env : Env) : Except Nat Config :=
  if truthy env.jiraUsername && truthy env.jiraApiToken then
    .ok { releaseName := releaseName
          projectName := projectName
          ticketStatus := ticketStatus
          jiraBaseUrl := env.jiraBaseUrl.getD "https://your-jira-instance.atlassian.net"
          jiraUsername := (env.jiraUsername.getD "")
          jiraApiToken := (env.jiraApiToken.getD "") }
  else
    .error 1

/-- The whole program after argument parsing: construct the creator (which
may exit before any network traffic) and then run the workflow. -/
def program (releaseName projectName ticketStatus today : String)
    (env : Env) (tr : Tracker) : List Request × RunResult :=
  match initCreator releaseName projectName ticketStatus env with
  | .error code => ([], .aborted code)
  | .ok _ => run releaseName projectName ticketStatus today tr

/-- `add_fix_version_to_tickets` with a failure oracle on the PUT requests:
`ok key` tells whether the PUT for that issue key succeeds.  A failing PUT
is still issued (it is the request that fails) and then the process exits:
the returned Boolean is `false` exactly when the loop was aborted by a
failed request. -/
def addFixVersionLoop (releaseId : String) (ok : String → Bool) :
    List Issue → List PutRequest × Bool
  | [] => ([], true)
  | issue :: rest =>
    match processIssue releaseId issue with
    | .alreadyHas _ => addFixVersionLoop releaseId ok rest
    | .updated key body =>
      if ok key then
        let r := addFixVersionLoop releaseId ok rest
        (⟨key, body⟩ :: r.1, r.2)
      else
        ([⟨key, body⟩], false)

/-- Whether the loop would issue a PUT for this issue: the release id is
not yet among its version ids. -/
def needsUpdate (releaseId : String) (issue : Issue) : Bool :=
  decide (releaseId ∉ currentFixVersionIds issue)

/-- The number of PUT outcomes produced by the attach loop equals the
number of issues whose version ids do not yet contain the release id. -/
theorem length_filterMap_putOfOutcome (releaseId : String) (issues : List Issue) :
    ((issues.map (processIssue releaseId)).filterMap putOfOutcome).length =
      (issues.filter (needsUpdate releaseId)).length := by
  induction issues with
  | nil => rfl
  | cons i rest ih =>
    by_cases h : releaseId ∈ currentFixVersionIds i
    · have h1 : processIssue releaseId i = .alreadyHas i.key := by
        simp [processIssue, h]
      have h2 : needsUpdate releaseId i = false := by
        simp [needsUpdate, h]
      simp [h1, h2, putOfOutcome, List.filter_cons]
      simpa using ih
    · have h1 : processIssue releaseId i =
          .updated i.key ((currentFixVersionIds i ++ [releaseId]).map VersionRef.mk) := by
        simp [processIssue, h]
      have h2 : needsUpdate releaseId i = true := by
        simp [needsUpdate, h]
      simp [h1, h2, putOfOutcome, List.filter_cons]
      simpa using ih

/-- A filter drops at least one element when some element fails the
predicate, so the filtered length is strictly smaller. -/
theorem length_filter_lt_of_exists_not {α : Type} (p : α → Bool) (l : List α)
    (h : ∃ x ∈ l, p x = false) : (l.filter p).length < l.length := by
  induction l with
  | nil => simp at h
  | cons a l ih =>
    rcases h with ⟨x, hx, hpx⟩
    rcases List.mem_cons.mp hx with rfl | hx
    · rw [List.filter_cons, hpx]
      exact Nat.lt_succ_of_le (List.length_filter_le p l)
    · rw [List.filter_cons]
      by_cases hpa : p a
      · rw [hpa]
        simpa using Nat.succ_lt_succ (ih ⟨x, hx, hpx⟩)
      · rw [Bool.not_eq_true] at hpa
        rw [hpa]
        exact Nat.lt_succ_of_lt (ih ⟨x, hx, hpx⟩)

/-- Filtering the PUT requests out of a list that consists only of PUT
requests keeps every element. -/
theorem filter_isPutReq_map_putIssue (l : List PutRequest) :
    ((l.map (fun p => Request.putIssue p.key p.fixVersions)).filter isPutReq).length =
      l.length := by
  induction l with
  | nil => rfl
  | cons p rest ih => simp [List.filter_cons, isPutReq, ih]

/-- Claim C1: when the release id is absent from a ticket's existing
version-id list, the attach step issues an update whose version list is the
existing list with the release id appended once at the end, prior entries
and their order preserved, and the release id occurs exactly once in the
new list. -/
theorem attach_appends_release_id (releaseId : String) (issue : Issue)
    (h : releaseId ∉ currentFixVersionIds issue) :
    processIssue releaseId issue =
      .updated issue.key ((currentFixVersionIds issue ++ [releaseId]).map VersionRef.mk) ∧
    (currentFixVersionIds issue ++ [releaseId]).count releaseId = 1 := by
  constructor
  · simp [processIssue, h]
  · simp [List.count_append, List.count_eq_zero.mpr h]

/-- Witness for C1 at a concrete ticket with one existing version. -/
theorem attach_appends_release_id_witness :
    processIssue "10050" ⟨"PROJ-2", some ⟨some [⟨"9000"⟩]⟩⟩ =
      .updated "PROJ-2"
        ((currentFixVersionIds ⟨"PROJ-2", some ⟨some [⟨"9000"⟩]⟩⟩ ++ ["10050"]).map
          VersionRef.mk) ∧
    (currentFixVersionIds ⟨"PROJ-2", some ⟨some [⟨"9000"⟩]⟩⟩ ++ ["10050"]).count "10050" = 1 :=
  attach_appends_release_id "10050" ⟨"PROJ-2", some ⟨some [⟨"9000"⟩]⟩⟩ (by decide)

/-- Claim C2: when the release id is already present in a ticket's
version-id list, the attach step takes the skip branch: it produces no PUT
request and reports the "already has the fixVersion" outcome, leaving the
ticket's version set untouched. -/
theorem attach_skips_when_present (releaseId : String) (issue : Issue)
    (h : releaseId ∈ currentFixVersionIds issue) :
    processIssue releaseId issue = .alreadyHas issue.key ∧
    putOfOutcome (processIssue releaseId issue) = none ∧
    outcomeMessage (processIssue releaseId issue) =
      "Issue " ++ issue.key ++ " already has the fixVersion" := by
  have h1 : processIssue releaseId issue = .alreadyHas issue.key := by
    simp [processIssue, h]
  exact ⟨h1, by rw [h1]; rfl, by rw [h1]; rfl⟩

/-- Witness for C2 at a concrete ticket already carrying the release id. -/
theorem attach_skips_when_present_witness :
    processIssue "10050" ⟨"PROJ-3", some ⟨some [⟨"10050"⟩]⟩⟩ = .alreadyHas "PROJ-3" ∧
    putOfOutcome (processIssue "10050" ⟨"PROJ-3", some ⟨some [⟨"10050"⟩]⟩⟩) = none ∧
    outcomeMessage (processIssue "10050" ⟨"PROJ-3", some ⟨some [⟨"10050"⟩]⟩⟩) =
      "Issue " ++ "PROJ-3" ++ " already has the fixVersion" :=
  attach_skips_when_present "10050" ⟨"PROJ-3", some ⟨some [⟨"10050"⟩]⟩⟩ (by decide)

/-- Claim C10: an issue with no `fields` entry, or fields lacking a
`fixVersions` entry, is treated as having an empty version set, and the
update issued for it carries exactly the new release id. -/
theorem attach_missing_fields_singleton (releaseId : String) (issue : Issue)
    (h : issue.fields = none ∨ ∃ f, issue.fields = some f ∧ f.fixVersions = none) :
    processIssue releaseId issue = .updated issue.key [⟨releaseId⟩] := by
  have hv : currentFixVersions issue = [] := by
    rcases h with h | ⟨f, hf, hfix⟩
    · simp [currentFixVersions, h]
    · simp [currentFixVersions, hf, hfix]
  simp [processIssue, currentFixVersionIds, hv]

/-- Witness for C10 at a concrete issue with a missing `fields` entry. -/
theorem attach_missing_fields_singleton_witness :
    processIssue "10050" ⟨"PROJ-9", none⟩ = .updated "PROJ-9" [⟨"10050"⟩] :=
  attach_missing_fields_singleton "10050" ⟨"PROJ-9", none⟩ (Or.inl rfl)

/-- Claim C3: when the release-creation response omits the `id` field, the
run aborts with exit code 1 without issuing any ticket query or any ticket
update: its trace contains no search request and no PUT request. -/
theorem missing_release_id_aborts (rn pn ts today : String) (tr : Tracker)
    (h : tr.createResponse.id = none) :
    (run rn pn ts today tr).2 = .aborted 1 ∧
    ∀ r ∈ (run rn pn ts today tr).1, isSearchReq r = false ∧ isPutReq r = false := by
  have ht : truthy tr.createResponse.id = false := by rw [h]; rfl
  refine ⟨by simp [run, ht], ?_⟩
  intro r hr
  simp [run, ht] at hr
  rcases hr with h1 | h1 <;> subst h1 <;> exact ⟨rfl, rfl⟩

/-- Witness for C3 with a concrete tracker whose creation response lacks
an id. -/
theorem missing_release_id_aborts_witness :
    (run "v1.2.3" "PROJ" "Ready for Release" "2026-10-12"
        ⟨some "jdoe", ⟨none, some "v1.2.3"⟩, [⟨"PROJ-1", none⟩]⟩).2 = .aborted 1 ∧
    ∀ r ∈ (run "v1.2.3" "PROJ" "Ready for Release" "2026-10-12"
        ⟨some "jdoe", ⟨none, some "v1.2.3"⟩, [⟨"PROJ-1", none⟩]⟩).1,
      isSearchReq r = false ∧ isPutReq r = false :=
  missing_release_id_aborts "v1.2.3" "PROJ" "Ready for Release" "2026-10-12"
    ⟨some "jdoe", ⟨none, some "v1.2.3"⟩, [⟨"PROJ-1", none⟩]⟩ rfl

/-- Claim C5: when the username or the API token is absent from the
environment, the program exits with code 1 having issued zero requests. -/
theorem missing_credentials_aborts (rn pn ts today : String) (env : Env) (tr : Tracker)
    (h : env.jiraUsername = none ∨ env.jiraApiToken = none) :
    program rn pn ts today env tr = ([], .aborted 1) := by
  rcases h with h | h <;> simp [program, initCreator, truthy, h]

/-- Witness for C5 with a concrete environment lacking the API token. -/
theorem missing_credentials_aborts_witness :
    program "v1.2.3" "PROJ" "Ready for Release" "2026-10-12"
        ⟨none, some "jdoe", none⟩
        ⟨some "jdoe", ⟨some "10050", some "v1.2.3"⟩, []⟩ = ([], .aborted 1) :=
  missing_credentials_aborts "v1.2.3" "PROJ" "Ready for Release" "2026-10-12"
    ⟨none, some "jdoe", none⟩ ⟨some "jdoe", ⟨some "10050", some "v1.2.3"⟩, []⟩
    (Or.inr rfl)

/-- Claim C6 counterexample: the claim says `userReleaseDate` is set to a
user-supplied value, but two runs identical in every user-supplied input
(the three CLI flags and the credentials) performed at different clock
dates produce different `userReleaseDate` values — the field is the current
system date, which no user input determines. -/
theorem release_date_not_user_supplied :
    (createReleaseBody "v1.2.3" "PROJ" "2026-10-12" (some "jdoe")).userReleaseDate ≠
      (createReleaseBody "v1.2.3" "PROJ" "2026-10-13" (some "jdoe")).userReleaseDate ∧
    (createReleaseBody "v1.2.3" "PROJ" "2026-10-12" (some "jdoe")).userReleaseDate =
      "2026-10-12" := by
  exact ⟨by decide, rfl⟩

/-- Claim C6 (amended): every run's trace contains the release-creation
request, whose body sets the released flag to `false` and sets
`userReleaseDate` to the current date at run time. -/
theorem release_body_released_false_date_today (rn pn ts today : String) (tr : Tracker) :
    Request.postVersion (createReleaseBody rn pn today tr.myselfKey) ∈
      (run rn pn ts today tr).1 ∧
    (createReleaseBody rn pn today tr.myselfKey).released = false ∧
    (createReleaseBody rn pn today tr.myselfKey).userReleaseDate = today := by
  refine ⟨?_, rfl, rfl⟩
  by_cases h : truthy tr.createResponse.id <;> simp [run, h]

/-- Claim C7: when the ticket query returns an empty list, the run
completes, issues zero PUT requests, and the final summary count is 0. -/
theorem empty_query_zero_updates (rn pn ts today : String) (tr : Tracker)
    (hid : truthy tr.createResponse.id = true) (h : tr.searchIssues = []) :
    (run rn pn ts today tr).2 = .completed 0 ∧
    ∀ r ∈ (run rn pn ts today tr).1, isPutReq r = false := by
  refine ⟨by simp [run, hid, h], ?_⟩
  intro r hr
  simp [run, hid, h] at hr
  rcases hr with h1 | h1 | h1 <;> subst h1 <;> rfl

/-- Witness for C7 with a concrete tracker returning no issues. -/
theorem empty_query_zero_updates_witness :
    (run "v1.2.3" "PROJ" "Ready for Release" "2026-10-12"
        ⟨some "jdoe", ⟨some "10050", some "v1.2.3"⟩, []⟩).2 = .completed 0 ∧
    ∀ r ∈ (run "v1.2.3" "PROJ" "Ready for Release" "2026-10-12"
        ⟨some "jdoe", ⟨some "10050", some "v1.2.3"⟩, []⟩).1,
      isPutReq r = false :=
  empty_query_zero_updates "v1.2.3" "PROJ" "Ready for Release" "2026-10-12"
    ⟨some "jdoe", ⟨some "10050", some "v1.2.3"⟩, []⟩ (by decide) rfl

/-- The tracker of the end-to-end scenario: current user `jdoe`, creation
response id `10050`, and two matching issues, `PROJ-1` with an empty
version list and `PROJ-2` with existing version `9000`. -/
def scenarioTracker : Tracker :=
  { myselfKey := some "jdoe"
    createResponse := { id := some "10050", name := some "v1.2.3" }
    searchIssues :=
      [ { key := "PROJ-1", fields := some { fixVersions := some [] } }
      , { key := "PROJ-2", fields := some { fixVersions := some [⟨"9000"⟩] } } ] }

/-- Claim C4: in the end-to-end scenario the run issues exactly the PUT
requests `PROJ-1 ↦ [10050]` and `PROJ-2 ↦ [9000, 10050]`, in that order,
and the final summary reports 2 issues. -/
theorem end_to_end_scenario :
    (run "v1.2.3" "PROJ" "Ready for Release" "2026-10-12" scenarioTracker).1.filter
        isPutReq =
      [Request.putIssue "PROJ-1" [⟨"10050"⟩],
       Request.putIssue "PROJ-2" [⟨"9000"⟩, ⟨"10050"⟩]] ∧
    (run "v1.2.3" "PROJ" "Ready for Release" "2026-10-12" scenarioTracker).2 =
      .completed 2 := by
  exact ⟨by decide, by decide⟩

/-- Claim C8: if the PUT for some ticket `y` fails, the attach loop behaves
exactly as if the issues after `y` were not there — no update request is
issued for any later ticket — and the loop ends in the aborted state. -/
theorem put_failure_stops_processing (releaseId : String) (ok : String → Bool)
    (xs zs : List Issue) (y : Issue)
    (hneed : releaseId ∉ currentFixVersionIds y) (hfail : ok y.key = false) :
    addFixVersionLoop releaseId ok (xs ++ y :: zs) =
      addFixVersionLoop releaseId ok (xs ++ [y]) ∧
    (addFixVersionLoop releaseId ok (xs ++ y :: zs)).2 = false := by
  induction xs with
  | nil =>
    have hy : processIssue releaseId y =
        .updated y.key ((currentFixVersionIds y ++ [releaseId]).map VersionRef.mk) := by
      simp [processIssue, hneed]
    constructor
    · simp [addFixVersionLoop, hy, hfail]
    · simp [addFixVersionLoop, hy, hfail]
  | cons x rest ih =>
    cases hx : processIssue releaseId x with
    | alreadyHas key =>
      constructor
      · simpa [addFixVersionLoop, hx] using ih.1
      · simpa [addFixVersionLoop, hx] using ih.2
    | updated key body =>
      by_cases hok : ok key
      · constructor
        · simp [addFixVersionLoop, hx, hok, ih.1]
        · simp [addFixVersionLoop, hx, hok, ih.2]
      · constructor
        · simp [addFixVersionLoop, hx, hok]
        · simp [addFixVersionLoop, hx, hok]

/-- Witness for C8: ticket B's update fails, so the loop's result on
A, B, C equals its result on A, B alone and ends aborted. -/
theorem put_failure_stops_processing_witness :
    addFixVersionLoop "10050" (fun k => k != "B")
        ([⟨"A", none⟩] ++ Issue.mk "B" none :: [⟨"C", none⟩]) =
      addFixVersionLoop "10050" (fun k => k != "B") ([⟨"A", none⟩] ++ [⟨"B", none⟩]) ∧
    (addFixVersionLoop "10050" (fun k => k != "B")
        ([⟨"A", none⟩] ++ Issue.mk "B" none :: [⟨"C", none⟩])).2 = false :=
  put_failure_stops_processing "10050" (fun k => k != "B") [⟨"A", none⟩]
    [⟨"C", none⟩] ⟨"B", none⟩ (by decide) (by decide)

/-- Claim C9: when the run completes, the summary count is the total number
of queried issues — skipped ones included — the number of PUT requests in
the trace is the number of issues actually needing the update, and when at
least one issue is skipped the summary count strictly exceeds the number of
PUT requests issued. -/
theorem summary_counts_all_issues (rn pn ts today : String) (tr : Tracker)
    (hid : truthy tr.createResponse.id = true) :
    (run rn pn ts today tr).2 = .completed tr.searchIssues.length ∧
    ((run rn pn ts today tr).1.filter isPutReq).length =
      (tr.searchIssues.filter (needsUpdate (tr.createResponse.id.getD ""))).length ∧
    ((∃ i ∈ tr.searchIssues,
        tr.createResponse.id.getD "" ∈ currentFixVersionIds i) →
      ((run rn pn ts today tr).1.filter isPutReq).length <
        tr.searchIssues.length) := by
  have hlen : ((run rn pn ts today tr).1.filter isPutReq).length =
      (tr.searchIssues.filter (needsUpdate (tr.createResponse.id.getD ""))).length := by
    simp [run, hid, List.filter_append, List.filter_cons, isPutReq]
    rw [filter_isPutReq_map_putIssue]
    simpa using length_filterMap_putOfOutcome (tr.createResponse.id.getD "")
      tr.searchIssues
  refine ⟨by simp [run, hid], hlen, ?_⟩
  intro ⟨i, hi, hmem⟩
  rw [hlen]
  exact length_filter_lt_of_exists_not _ _
    ⟨i, hi, by simp [needsUpdate, hmem]⟩

/-- Witness for C9: with one updated and one skipped issue the summary
count is 2 and the single PUT request is strictly fewer. -/
theorem summary_counts_all_issues_witness :
    (run "v1.2.3" "PROJ" "Ready for Release" "2026-10-12"
        ⟨some "jdoe", ⟨some "10050", some "v1.2.3"⟩,
          [⟨"PROJ-1", none⟩, ⟨"PROJ-3", some ⟨some [⟨"10050"⟩]⟩⟩]⟩).2 =
      .completed
        (Tracker.searchIssues ⟨some "jdoe", ⟨some "10050", some "v1.2.3"⟩,
          [⟨"PROJ-1", none⟩, ⟨"PROJ-3", some ⟨some [⟨"10050"⟩]⟩⟩]⟩).length ∧
    ((run "v1.2.3" "PROJ" "Ready for Release" "2026-10-12"
        ⟨some "jdoe", ⟨some "10050", some "v1.2.3"⟩,
          [⟨"PROJ-1", none⟩, ⟨"PROJ-3", some ⟨some [⟨"10050"⟩]⟩⟩]⟩).1.filter
        isPutReq).length =
      ((Tracker.searchIssues ⟨some "jdoe", ⟨some "10050", some "v1.2.3"⟩,
          [⟨"PROJ-1", none⟩, ⟨"PROJ-3", some ⟨some [⟨"10050"⟩]⟩⟩]⟩).filter
        (needsUpdate ((VersionResponse.mk (some "10050") (some "v1.2.3")).id.getD ""))).length ∧
    ((∃ i ∈ Tracker.searchIssues ⟨some "jdoe", ⟨some "10050", some "v1.2.3"⟩,
          [⟨"PROJ-1", none⟩, ⟨"PROJ-3", some ⟨some [⟨"10050"⟩]⟩⟩]⟩,
        (VersionResponse.mk (some "10050") (some "v1.2.3")).id.getD "" ∈
          currentFixVersionIds i) →
      ((run "v1.2.3" "PROJ" "Ready for Release" "2026-10-12"
          ⟨some "jdoe", ⟨some "10050", some "v1.2.3"⟩,
            [⟨"PROJ-1", none⟩, ⟨"PROJ-3", some ⟨some [⟨"10050"⟩]⟩⟩]⟩).1.filter
          isPutReq).length <
        (Tracker.searchIssues ⟨some "jdoe", ⟨some "10050", some "v1.2.3"⟩,
          [⟨"PROJ-1", none⟩, ⟨"PROJ-3", some ⟨some [⟨"10050"⟩]⟩⟩]⟩).length) :=
  summary_counts_all_issues "v1.2.3" "PROJ" "Ready for Release" "2026-10-12"
    ⟨some "jdoe", ⟨some "10050", some "v1.2.3"⟩,
      [⟨"PROJ-1", none⟩, ⟨"PROJ-3", some ⟨some [⟨"10050"⟩]⟩⟩]⟩ (by decide)

end JiraRelease
